import Mathlib

/-!
# calc_average_plusplus

A shallow embedding of `part-3/calc_average_plusplus.cc` and the properties of
its command line contract.

Conventions of the embedding.

* `int` values are `Int`; the only place where the 32 bit range matters is the
  range check of `std::stoi`, which is modelled explicitly.
* `float` values are exact rationals. The only float the program produces is
  the constant `-42.0`, which is exactly representable.
* Standard output is the ordered list of items streamed into `cout`
  (`Out.str`, `Out.int`, `Out.flt`). `render` turns it into text; the text of a
  float is a parameter of `render`, the text of an `int` is its decimal form.
* The pseudo random engine is a stream `draws : Nat → Int` of the values that
  successive calls of `uniform_dist(mt_engine)` yield, together with a counter
  of the calls made so far.
* A process ends in one of three ways: `exit(n)`, `return n` from `main`, or
  an exception that nobody catches (`std::terminate`).
* `CalculateAverage` is written `return -42.0` in the source (the closing
  semicolon is missing); it is embedded as the function returning `-42.0`.
-/

namespace CalcAverage

/-! ## Standard library pieces used by the program -/

/-- Smallest value of a 32 bit `int`. -/
def INT_MIN : Int := -2147483648

/-- Largest value of a 32 bit `int`. -/
def INT_MAX : Int := 2147483647

/-- The characters `isspace` accepts in the C locale. -/
def isSpace (c : Char) : Bool :=
  c == ' ' || c == '\t' || c == '\n' || c == '\x0b' || c == '\x0c' || c == '\r'

/-- Value of a run of decimal digits, most significant first. -/
def digitsValue (ds : List Char) : Nat :=
  ds.foldl (fun acc d => acc * 10 + (d.toNat - 48)) 0

/-- Sign and remainder of a character list after an optional `+` or `-`. -/
def splitSign : List Char → Bool × List Char
  | '-' :: r => (true, r)
  | '+' :: r => (false, r)
  | cs => (false, cs)

/-- The function `std::stoi(str)` with base 10 and no position argument: skip
leading white space, read an optional sign and the longest run of digits, and
ignore whatever follows. `none` stands for a thrown `std::invalid_argument`
(no digit was read) or `std::out_of_range` (the value does not fit an `int`). -/
def stoi (s : String) : Option Int :=
  let cs := s.data.dropWhile isSpace
  let sr := splitSign cs
  let ds := sr.2.takeWhile Char.isDigit
  if ds.isEmpty then none
  else
    let v : Int := if sr.1 then -(digitsValue ds : Int) else (digitsValue ds : Int)
    if INT_MIN ≤ v ∧ v ≤ INT_MAX then some v else none

/-- The constructor `vector<int>(n)` called with an `int`: `n` value-initialised
elements. A negative `n` converts to a `size_type` above `max_size()` and the
constructor throws (`none`). -/
def makeVector (n : Int) : Option (List Int) :=
  if n < 0 then none else some (List.replicate n.toNat 0)

/-! ## Standard output -/

/-- One item streamed into `cout`. -/
inductive Out where
  | str (s : String)
  | int (i : Int)
  | flt (q : ℚ)
  deriving DecidableEq

/-- Text of one streamed item; `fmt` is the text `operator<<` gives a float. -/
def Out.text (fmt : ℚ → String) : Out → String
  | Out.str s => s
  | Out.int i => toString i
  | Out.flt q => fmt q

/-- Text of everything streamed into `cout`. -/
def render (fmt : ℚ → String) : List Out → String
  | [] => ""
  | x :: xs => Out.text fmt x ++ render fmt xs

/-- Class `RandomNumberGenerator`: the bounds handed to the uniform
distribution, the stream of values the seeded engine yields, and the number of
calls of `next()` made so far. -/
structure RandomNumberGenerator where
  minimum : Int
  maximum : Int
  draws : Nat → Int
  calls : Nat

/-- Constructor `RandomNumberGenerator(minimum, maximum)`. -/
def RandomNumberGenerator.new (draws : Nat → Int) (minimum maximum : Int) :
    RandomNumberGenerator :=
  { minimum := minimum, maximum := maximum, draws := draws, calls := 0 }

/-- Method `RandomNumberGenerator::next()`: the next value of the engine. -/
def RandomNumberGenerator.next (g : RandomNumberGenerator) :
    Int × RandomNumberGenerator :=
  (g.draws g.calls, { g with calls := g.calls + 1 })

/-- Function `ErrorMessage(message)`: appends to `cout`. -/
def ErrorMessage (message : String) (out : List Out) : List Out :=
  out ++ [Out.str message, Out.str "\n", Out.str "There was an error. Exiting.\n"]

/-- Function `PrintVector(the_vector)`: the body is empty, nothing is
streamed. -/
def PrintVector (_the_vector : List Int) (out : List Out) : List Out :=
  out

/-- Function `FillVector(the_vector, nelements, random_number_generator)`: the
body is empty, so the vector and the generator are handed back untouched. -/
def FillVector (the_vector : List Int) (_nelements : Int)
    (random_number_generator : RandomNumberGenerator) :
    List Int × RandomNumberGenerator :=
  (the_vector, random_number_generator)

/-- Function `CalculateAverage(the_vector)`: `return -42.0`. -/
def CalculateAverage (_the_vector : List Int) : ℚ :=
  -42

/-- How the process ends. -/
inductive Status where
  | exited (code : Int)
  | returned (code : Int)
  | terminated
  deriving DecidableEq

/-- Everything observable about one run of `main`. -/
structure Run where
  /-- Items streamed into `cout`, in order. -/
  out : List Out
  /-- How the process ended. -/
  status : Status
  /-- The generator in its final state, when it was constructed. -/
  rng : Option RandomNumberGenerator
  /-- The length handed to the constructor of `random_numbers`, when reached. -/
  requested : Option Int
  /-- The vector `random_numbers` after `FillVector`, when reached. -/
  samples : Option (List Int)

/-- The `ErrorMessage(message); exit(1);` pair of `main`. -/
def failWith (message : String) : Run :=
  { out := ErrorMessage message [], status := Status.exited 1, rng := none,
    requested := none, samples := none }

/-- Diagnostic of the `argc < 4` branch. -/
def usageDiag : String :=
  "Please provide two positive integers as the maximum and " ++
  "minimum for this exercise and the number of integers to " ++
  "generate."

/-- Diagnostic of the first `catch`. -/
def firstDiag : String := "Trouble converting the first argument to a number."

/-- Diagnostic of the second `catch`. -/
def secondDiag : String := "Trouble converting the second argument to a number."

/-- Diagnostic of the third `catch`. -/
def thirdDiag : String := "Trouble converting the third argument to a number."

/-- Diagnostic of the range check. -/
def rangeDiag : String :=
  "Please make sure your first number is less than your second " ++
  "number and that they are both positive integers."

/-- The part of `main` after the range check. -/
def mainBody (draws : Nat → Int) (minimum_number maximum_number number_elements : Int) :
    Run :=
  let rng := RandomNumberGenerator.new draws minimum_number maximum_number
  match makeVector number_elements with
  | none =>
    { out := [], status := Status.terminated, rng := some rng,
      requested := some number_elements, samples := none }
  | some random_numbers =>
    let filled := FillVector random_numbers number_elements rng
    let out := PrintVector filled.1 []
    let average := CalculateAverage filled.1
    let out := out ++ [Out.str "The average value of the vector is ", Out.flt average,
      Out.str "\n"]
    { out := out, status := Status.returned 0, rng := some filled.2,
      requested := some number_elements, samples := some filled.1 }

/-- Function `main(argc, argv)`: `argv` is the whole argument vector, program
name first, and `argc` is its length. -/
def main (draws : Nat → Int) (argv : List String) : Run :=
  if argv.length < 4 then failWith usageDiag
  else
    let argv_one_minimum := argv.getD 1 ""
    let argv_two_maximum := argv.getD 2 ""
    let argv_three_number_elements := argv.getD 3 ""
    match stoi argv_one_minimum with
    | none => failWith firstDiag
    | some minimum_number =>
      match stoi argv_two_maximum with
      | none => failWith secondDiag
      | some maximum_number =>
        match stoi argv_three_number_elements with
        | none => failWith thirdDiag
        | some number_elements =>
          if maximum_number ≤ minimum_number ∨ maximum_number < 0 ∨ minimum_number < 0 then
            failWith rangeDiag
          else mainBody draws minimum_number maximum_number number_elements

/-! ## Definitions that follow the words of the specification -/

/-- Arithmetic mean as the specification words it: the sum of the elements
divided by their number, over the rationals. -/
def arithmeticMean (v : List Int) : ℚ :=
  (v.sum : ℚ) / (v.length : ℚ)

/-- A valid integer literal as the specification words it: an optional sign
followed by one or more decimal digits and nothing else. -/
def isIntegerLiteral (s : String) : Bool :=
  let r := (splitSign s.data).2
  !r.isEmpty && r.all Char.isDigit

/-- Standard output the specification asks of a successful run: each sample
followed by a newline, then the line with the average. -/
def expectedOutput (samples : List Int) (average : ℚ) : List Out :=
  samples.flatMap (fun x => [Out.int x, Out.str "\n"]) ++
    [Out.str "The average value of the vector is ", Out.flt average, Out.str "\n"]

/-- The values the first `n` calls of `next()` return, in call order. -/
def firstDraws (g : RandomNumberGenerator) (n : Nat) : List Int :=
  (List.range n).map (fun i => g.draws (g.calls + i))

/-! ## Auxiliary facts -/

theorem failWith_status (message : String) : (failWith message).status = Status.exited 1 :=
  rfl

theorem mainBody_status_ne (draws : Nat → Int) (mn mx c : Int) :
    (mainBody draws mn mx c).status ≠ Status.exited 1 := by
  unfold mainBody
  cases makeVector c <;> simp

theorem mainBody_requested (draws : Nat → Int) (mn mx c : Int) :
    (mainBody draws mn mx c).requested = some c := by
  unfold mainBody
  cases makeVector c <;> simp

theorem render_ErrorMessage (fmt : ℚ → String) (message : String) :
    render fmt (ErrorMessage message []) =
      message ++ "\n" ++ "There was an error. Exiting.\n" := by
  simp [ErrorMessage, render, Out.text, String.append_assoc]

theorem main_short (draws : Nat → Int) (argv : List String) (h : argv.length < 4) :
    main draws argv = failWith usageDiag := by
  unfold main
  rw [if_pos h]

theorem main_first_none (draws : Nat → Int) (argv : List String) (h : ¬ argv.length < 4)
    (h1 : stoi (argv.getD 1 "") = none) : main draws argv = failWith firstDiag := by
  unfold main
  rw [if_neg h]
  simp only [h1]

theorem main_second_none (draws : Nat → Int) (argv : List String) (h : ¬ argv.length < 4)
    (mn : Int) (h1 : stoi (argv.getD 1 "") = some mn) (h2 : stoi (argv.getD 2 "") = none) :
    main draws argv = failWith secondDiag := by
  unfold main
  rw [if_neg h]
  simp only [h1, h2]

theorem main_third_none (draws : Nat → Int) (argv : List String) (h : ¬ argv.length < 4)
    (mn mx : Int) (h1 : stoi (argv.getD 1 "") = some mn)
    (h2 : stoi (argv.getD 2 "") = some mx) (h3 : stoi (argv.getD 3 "") = none) :
    main draws argv = failWith thirdDiag := by
  unfold main
  rw [if_neg h]
  simp only [h1, h2, h3]

theorem main_range (draws : Nat → Int) (argv : List String) (h : ¬ argv.length < 4)
    (mn mx c : Int) (h1 : stoi (argv.getD 1 "") = some mn)
    (h2 : stoi (argv.getD 2 "") = some mx) (h3 : stoi (argv.getD 3 "") = some c)
    (hr : mx ≤ mn ∨ mx < 0 ∨ mn < 0) : main draws argv = failWith rangeDiag := by
  unfold main
  rw [if_neg h]
  simp only [h1, h2, h3]
  rw [if_pos hr]

theorem main_valid (draws : Nat → Int) (argv : List String) (h : ¬ argv.length < 4)
    (mn mx c : Int) (h1 : stoi (argv.getD 1 "") = some mn)
    (h2 : stoi (argv.getD 2 "") = some mx) (h3 : stoi (argv.getD 3 "") = some c)
    (hr : ¬ (mx ≤ mn ∨ mx < 0 ∨ mn < 0)) : main draws argv = mainBody draws mn mx c := by
  unfold main
  rw [if_neg h]
  simp only [h1, h2, h3]
  rw [if_neg hr]

/-- C1: for every argument vector, `main` ends through `exit(1)` exactly when
fewer than three user arguments are given (`argc < 4`), or one of the three
tokens fails the integer conversion, or the converted values satisfy
`maximum <= minimum`, `minimum < 0` or `maximum < 0`. -/
theorem main_exits_one_iff (draws : Nat → Int) (argv : List String) :
    (main draws argv).status = Status.exited 1 ↔
      (argv.length < 4 ∨ stoi (argv.getD 1 "") = none ∨ stoi (argv.getD 2 "") = none ∨
        stoi (argv.getD 3 "") = none ∨
        ∃ mn mx, stoi (argv.getD 1 "") = some mn ∧ stoi (argv.getD 2 "") = some mx ∧
          (mx ≤ mn ∨ mn < 0 ∨ mx < 0)) := by
  by_cases hlen : argv.length < 4
  · rw [main_short draws argv hlen]
    exact ⟨fun _ => Or.inl hlen, fun _ => rfl⟩
  · cases h1 : stoi (argv.getD 1 "") with
    | none =>
      rw [main_first_none draws argv hlen h1]
      exact ⟨fun _ => Or.inr (Or.inl rfl), fun _ => rfl⟩
    | some mn =>
      cases h2 : stoi (argv.getD 2 "") with
      | none =>
        rw [main_second_none draws argv hlen mn h1 h2]
        exact ⟨fun _ => Or.inr (Or.inr (Or.inl rfl)), fun _ => rfl⟩
      | some mx =>
        cases h3 : stoi (argv.getD 3 "") with
        | none =>
          rw [main_third_none draws argv hlen mn mx h1 h2 h3]
          exact ⟨fun _ => Or.inr (Or.inr (Or.inr (Or.inl rfl))), fun _ => rfl⟩
        | some c =>
          by_cases hr : mx ≤ mn ∨ mx < 0 ∨ mn < 0
          · rw [main_range draws argv hlen mn mx c h1 h2 h3 hr]
            refine ⟨fun _ => ?_, fun _ => rfl⟩
            right; right; right; right
            exact ⟨mn, mx, rfl, rfl, by tauto⟩
          · rw [main_valid draws argv hlen mn mx c h1 h2 h3 hr]
            constructor
            · intro h
              exact absurd h (mainBody_status_ne draws mn mx c)
            · intro h
              exfalso
              rcases h with h | h | h | h | ⟨a, b, ha, hb, hab⟩
              · exact hlen h
              · cases h
              · cases h
              · cases h
              · cases ha
                cases hb
                exact hr (by tauto)

/-- C9: with at least three argument tokens, a first token that fails the
conversion makes `main` print exactly the line
`Trouble converting the first argument to a number.` and the fixed line, and
end in `exit(1)`, whatever the other tokens are; otherwise a failing second
token gives the same with the word `second`; otherwise a failing third token
gives the same with the word `third`, whatever the converted minimum and
maximum are, so a conversion failure wins over a range violation. -/
theorem earliest_conversion_failure_reported (draws : Nat → Int) (argv : List String)
    (hlen : 4 ≤ argv.length) :
    (stoi (argv.getD 1 "") = none →
      (main draws argv).out =
          [Out.str "Trouble converting the first argument to a number.", Out.str "\n",
            Out.str "There was an error. Exiting.\n"] ∧
        (∀ fmt, render fmt (main draws argv).out =
          "Trouble converting the first argument to a number.\nThere was an error. Exiting.\n") ∧
        (main draws argv).status = Status.exited 1) ∧
    (∀ mn, stoi (argv.getD 1 "") = some mn → stoi (argv.getD 2 "") = none →
      (main draws argv).out =
          [Out.str "Trouble converting the second argument to a number.", Out.str "\n",
            Out.str "There was an error. Exiting.\n"] ∧
        (∀ fmt, render fmt (main draws argv).out =
          "Trouble converting the second argument to a number.\nThere was an error. Exiting.\n") ∧
        (main draws argv).status = Status.exited 1) ∧
    (∀ mn mx, stoi (argv.getD 1 "") = some mn → stoi (argv.getD 2 "") = some mx →
      stoi (argv.getD 3 "") = none →
      (main draws argv).out =
          [Out.str "Trouble converting the third argument to a number.", Out.str "\n",
            Out.str "There was an error. Exiting.\n"] ∧
        (∀ fmt, render fmt (main draws argv).out =
          "Trouble converting the third argument to a number.\nThere was an error. Exiting.\n") ∧
        (main draws argv).status = Status.exited 1) := by
  have hl : ¬ argv.length < 4 := Nat.not_lt.mpr hlen
  refine ⟨fun h1 => ?_, fun mn h1 h2 => ?_, fun mn mx h1 h2 h3 => ?_⟩
  · rw [main_first_none draws argv hl h1]
    refine ⟨rfl, fun fmt => ?_, rfl⟩
    rw [show (failWith firstDiag).out = ErrorMessage firstDiag [] from rfl,
      render_ErrorMessage]
    decide
  · rw [main_second_none draws argv hl mn h1 h2]
    refine ⟨rfl, fun fmt => ?_, rfl⟩
    rw [show (failWith secondDiag).out = ErrorMessage secondDiag [] from rfl,
      render_ErrorMessage]
    decide
  · rw [main_third_none draws argv hl mn mx h1 h2 h3]
    refine ⟨rfl, fun fmt => ?_, rfl⟩
    rw [show (failWith thirdDiag).out = ErrorMessage thirdDiag [] from rfl,
      render_ErrorMessage]
    decide

/-- Witness of C9: `("a", "x", "y")` names the first argument, `("1", "b", "y")`
the second, and `("5", "3", "c")`, whose minimum exceeds its maximum, the
third. -/
theorem earliest_conversion_failure_reported_witness :
    ((main (fun _ => 1) ["calc", "a", "x", "y"]).out =
          [Out.str "Trouble converting the first argument to a number.", Out.str "\n",
            Out.str "There was an error. Exiting.\n"] ∧
        (∀ fmt, render fmt (main (fun _ => 1) ["calc", "a", "x", "y"]).out =
          "Trouble converting the first argument to a number.\nThere was an error. Exiting.\n") ∧
        (main (fun _ => 1) ["calc", "a", "x", "y"]).status = Status.exited 1) ∧
    ((main (fun _ => 1) ["calc", "1", "b", "y"]).out =
          [Out.str "Trouble converting the second argument to a number.", Out.str "\n",
            Out.str "There was an error. Exiting.\n"] ∧
        (∀ fmt, render fmt (main (fun _ => 1) ["calc", "1", "b", "y"]).out =
          "Trouble converting the second argument to a number.\nThere was an error. Exiting.\n") ∧
        (main (fun _ => 1) ["calc", "1", "b", "y"]).status = Status.exited 1) ∧
    ((main (fun _ => 1) ["calc", "5", "3", "c"]).out =
          [Out.str "Trouble converting the third argument to a number.", Out.str "\n",
            Out.str "There was an error. Exiting.\n"] ∧
        (∀ fmt, render fmt (main (fun _ => 1) ["calc", "5", "3", "c"]).out =
          "Trouble converting the third argument to a number.\nThere was an error. Exiting.\n") ∧
        (main (fun _ => 1) ["calc", "5", "3", "c"]).status = Status.exited 1) :=
  ⟨(earliest_conversion_failure_reported (fun _ => 1) ["calc", "a", "x", "y"]
      (by decide)).1 (by decide),
    (earliest_conversion_failure_reported (fun _ => 1) ["calc", "1", "b", "y"]
      (by decide)).2.1 1 (by decide) (by decide),
    (earliest_conversion_failure_reported (fun _ => 1) ["calc", "5", "3", "c"]
      (by decide)).2.2 5 3 (by decide) (by decide) (by decide)⟩

/-- C10: when the first two tokens convert to `0 <= min < max` and the third
converts to any `int` at all, negative ones included, no validation branch
fires: `main` does not take `exit(1)`, prints no error text, constructs the
generator on `(min, max)` and reaches the construction of the vector with the
converted count as the requested length. -/
theorem count_not_validated (draws : Nat → Int) (argv : List String) (mn mx c : Int)
    (hlen : 4 ≤ argv.length) (h1 : stoi (argv.getD 1 "") = some mn)
    (h2 : stoi (argv.getD 2 "") = some mx) (h3 : stoi (argv.getD 3 "") = some c)
    (hmn : 0 ≤ mn) (hlt : mn < mx) :
    (main draws argv).requested = some c ∧
      (main draws argv).status ≠ Status.exited 1 ∧
      Out.str "There was an error. Exiting.\n" ∉ (main draws argv).out ∧
      ∃ g, (main draws argv).rng = some g ∧ g.minimum = mn ∧ g.maximum = mx := by
  have hl : ¬ argv.length < 4 := Nat.not_lt.mpr hlen
  have hr : ¬ (mx ≤ mn ∨ mx < 0 ∨ mn < 0) := by omega
  rw [main_valid draws argv hl mn mx c h1 h2 h3 hr]
  refine ⟨mainBody_requested draws mn mx c, mainBody_status_ne draws mn mx c, ?_, ?_⟩
  · unfold mainBody
    cases makeVector c <;> simp [PrintVector]
  · unfold mainBody
    cases makeVector c <;>
      simp [FillVector, RandomNumberGenerator.new]

/-- Witness of C10: the tokens `("1", "10", "-3")` reach the vector construction
with requested length `-3`. -/
theorem count_not_validated_witness :
    (main (fun _ => 1) ["calc", "1", "10", "-3"]).requested = some (-3) ∧
      (main (fun _ => 1) ["calc", "1", "10", "-3"]).status ≠ Status.exited 1 ∧
      Out.str "There was an error. Exiting.\n" ∉
        (main (fun _ => 1) ["calc", "1", "10", "-3"]).out ∧
      ∃ g, (main (fun _ => 1) ["calc", "1", "10", "-3"]).rng = some g ∧
        g.minimum = 1 ∧ g.maximum = 10 :=
  count_not_validated (fun _ => 1) ["calc", "1", "10", "-3"] 1 10 (-3)
    (by decide) (by decide) (by decide) (by decide) (by decide) (by decide)

/-- C7, as stated, fails: `10abc` and ` 1` are not integer literals, yet
`std::stoi` converts them to `10` and `1`, and `main` runs to `return 0` with
the converted values and prints no conversion error. -/
theorem malformed_tokens_accepted :
    isIntegerLiteral "10abc" = false ∧ isIntegerLiteral " 1" = false ∧
      (main (fun _ => 1) ["calc", "1", "10abc", "5"]).status = Status.returned 0 ∧
      (main (fun _ => 1) ["calc", "1", "10abc", "5"]).out =
        [Out.str "The average value of the vector is ", Out.flt (-42), Out.str "\n"] ∧
      (∃ g, (main (fun _ => 1) ["calc", "1", "10abc", "5"]).rng = some g ∧ g.maximum = 10) ∧
      (main (fun _ => 1) ["calc", " 1", "10", "5"]).status = Status.returned 0 ∧
      (∃ g, (main (fun _ => 1) ["calc", " 1", "10", "5"]).rng = some g ∧ g.minimum = 1) := by
  refine ⟨by decide, by decide, by decide, by decide, ⟨_, rfl, by decide⟩, by decide,
    ⟨_, rfl, by decide⟩⟩

/-- C7, amended: when `std::stoi` fails on one of the three tokens, `main`
prints the conversion diagnostic of the earliest such token and ends in
`exit(1)` without constructing the generator or the vector; `std::stoi` skips
leading white space and stops at the first character after the digits, so
`10abc` converts to `10` and a blank followed by `5` converts to `5`. -/
theorem stoi_failure_reported (draws : Nat → Int) (argv : List String)
    (hlen : 4 ≤ argv.length)
    (h : stoi (argv.getD 1 "") = none ∨ stoi (argv.getD 2 "") = none ∨
      stoi (argv.getD 3 "") = none) :
    (main draws argv).status = Status.exited 1 ∧
      (main draws argv).rng = none ∧
      (main draws argv).requested = none ∧
      (main draws argv).samples = none ∧
      ((stoi (argv.getD 1 "") = none ∧ (main draws argv).out = ErrorMessage firstDiag []) ∨
        (stoi (argv.getD 1 "") ≠ none ∧ stoi (argv.getD 2 "") = none ∧
          (main draws argv).out = ErrorMessage secondDiag []) ∨
        (stoi (argv.getD 1 "") ≠ none ∧ stoi (argv.getD 2 "") ≠ none ∧
          stoi (argv.getD 3 "") = none ∧
          (main draws argv).out = ErrorMessage thirdDiag [])) ∧
      stoi "10abc" = some 10 ∧ stoi " 5" = some 5 := by
  have hl : ¬ argv.length < 4 := Nat.not_lt.mpr hlen
  cases h1 : stoi (argv.getD 1 "") with
  | none =>
    rw [main_first_none draws argv hl h1]
    exact ⟨rfl, rfl, rfl, rfl, Or.inl ⟨rfl, rfl⟩, by decide, by decide⟩
  | some mn =>
    cases h2 : stoi (argv.getD 2 "") with
    | none =>
      rw [main_second_none draws argv hl mn h1 h2]
      exact ⟨rfl, rfl, rfl, rfl, Or.inr (Or.inl ⟨by simp, rfl, rfl⟩), by decide, by decide⟩
    | some mx =>
      cases h3 : stoi (argv.getD 3 "") with
      | none =>
        rw [main_third_none draws argv hl mn mx h1 h2 h3]
        exact ⟨rfl, rfl, rfl, rfl, Or.inr (Or.inr ⟨by simp, by simp, rfl, rfl⟩), by decide,
          by decide⟩
      | some c =>
        rw [h1, h2, h3] at h
        rcases h with h | h | h <;> cases h

/-- Witness of C7 amended: the tokens `("1", "abc", "5")`. -/
theorem stoi_failure_reported_witness :
    (main (fun _ => 1) ["calc", "1", "abc", "5"]).status = Status.exited 1 ∧
      (main (fun _ => 1) ["calc", "1", "abc", "5"]).rng = none ∧
      (main (fun _ => 1) ["calc", "1", "abc", "5"]).out = ErrorMessage secondDiag [] := by
  obtain ⟨hs, hg, _, _, ho, _, _⟩ :=
    stoi_failure_reported (fun _ => 1) ["calc", "1", "abc", "5"] (by decide)
      (Or.inr (Or.inl (by decide)))
  refine ⟨hs, hg, ?_⟩
  rcases ho with ⟨h1, _⟩ | ⟨_, _, ho⟩ | ⟨_, h2, _⟩
  · exact absurd h1 (by decide)
  · exact ho
  · exact absurd (by decide) h2

/-! ## The unfinished functions -/

/-- C2 at `(min, max, count) = (1, 10, 5)` with a source that always returns
`7`: the vector `main` builds has five elements, but they are the zeros of the
constructor, which lie outside `[1, 10]`. -/
theorem samples_outside_range :
    (∀ i : Nat, (1 : Int) ≤ (fun (_ : Nat) => (7 : Int)) i ∧
        (fun (_ : Nat) => (7 : Int)) i ≤ 10) ∧
      (main (fun _ => 7) ["calc", "1", "10", "5"]).samples = some [0, 0, 0, 0, 0] ∧
      ¬ (∀ x ∈ [(0 : Int), 0, 0, 0, 0], 1 ≤ x ∧ x ≤ 10) := by
  refine ⟨fun _ => ⟨by norm_num, by norm_num⟩, by decide, by decide⟩

/-- C3 at `v = 1`, `n = 1`: `CalculateAverage` of the vector holding `1` once
is `-42`, not `1`. -/
theorem average_of_constant_vector :
    CalculateAverage (List.replicate 1 1) = -42 ∧
      CalculateAverage (List.replicate 1 1) ≠ 1 := by
  refine ⟨rfl, by decide⟩

/-- C4 at the vector `[1, 2, 3]`: its arithmetic mean is `2`, while
`CalculateAverage` returns `-42`. -/
theorem average_not_mean :
    arithmeticMean [1, 2, 3] = 2 ∧ CalculateAverage [1, 2, 3] = -42 ∧
      CalculateAverage [1, 2, 3] ≠ arithmeticMean [1, 2, 3] := by
  have hm : arithmeticMean [1, 2, 3] = 2 := by
    norm_num [arithmeticMean]
  refine ⟨hm, rfl, ?_⟩
  rw [hm]
  norm_num [CalculateAverage]

/-- C5 at `n = 3` with a fresh source whose calls return `1, 2, 3`:
`FillVector` keeps the length, but the vector still holds its zeros and
`next()` was never called. -/
theorem fill_vector_leaves_vector :
    firstDraws (RandomNumberGenerator.new (fun i => (i : Int) + 1) 1 10) 3 = [1, 2, 3] ∧
      (FillVector [0, 0, 0] 3
        (RandomNumberGenerator.new (fun i => (i : Int) + 1) 1 10)).1 = [0, 0, 0] ∧
      (FillVector [0, 0, 0] 3
        (RandomNumberGenerator.new (fun i => (i : Int) + 1) 1 10)).2.calls = 0 := by
  refine ⟨by decide, rfl, rfl⟩

/-- C6 at the tokens `("1", "10", "5")`: `main` returns `0`, but all it writes
is the average line; the five sample lines the claim asks for are missing. -/
theorem main_prints_no_samples :
    (main (fun _ => 7) ["calc", "1", "10", "5"]).status = Status.returned 0 ∧
      (main (fun _ => 7) ["calc", "1", "10", "5"]).samples = some [0, 0, 0, 0, 0] ∧
      (main (fun _ => 7) ["calc", "1", "10", "5"]).out =
        [Out.str "The average value of the vector is ", Out.flt (-42), Out.str "\n"] ∧
      (main (fun _ => 7) ["calc", "1", "10", "5"]).out ≠
        expectedOutput [0, 0, 0, 0, 0] (-42) := by
  refine ⟨by decide, by decide, by decide, by decide⟩

end CalcAverage
